import Mathlib

/-!
Verification of OvmfPkg/AmdSevDxe/AmdSevDxe.c.

The driver is shallowly embedded: every external collaborator
(MemEncryptSevLib, the GCD services, the boot services, the Pcd values)
is supplied by an explicit environment record `Env`, and the driver code
is a Lean function from the environment to an outcome (a returned
EFI_STATUS, or a CpuDeadLoop halt) together with the ordered trace of
collaborator invocations it performed.  ASSERT and ASSERT_EFI_ERROR are
modelled with their release-build expansion (no effect); `CpuDeadLoop` is
modelled as the `halt` outcome.
-/

namespace AmdSevDxe

/-- Page shift from the UEFI base types: pages are 4 KiB. -/
def EFI_PAGE_SHIFT : Nat := 12

/-- Mask of the in-page offset bits, `0xFFF`. -/
def EFI_PAGE_MASK : Nat := 0xFFF

/-- Size-to-pages conversion from the UEFI base types:
`(Size >> EFI_PAGE_SHIFT) + ((Size & EFI_PAGE_MASK) ? 1 : 0)`. -/
def EFI_SIZE_TO_PAGES (Size : Nat) : Nat :=
  (Size >>> EFI_PAGE_SHIFT) + (if Size &&& EFI_PAGE_MASK != 0 then 1 else 0)

/-- Pages-to-size conversion from the UEFI base types:
`Pages << EFI_PAGE_SHIFT`. -/
def EFI_PAGES_TO_SIZE (Pages : Nat) : Nat :=
  Pages <<< EFI_PAGE_SHIFT

/-- Status success value `EFI_SUCCESS = 0`. -/
def EFI_SUCCESS : Nat := 0

/-- Error statuses have the high bit of the 64-bit status word set;
`EFI_ERROR(Status)` is `((INTN)Status) < 0`. -/
def EFI_ERROR (StatusValue : Nat) : Bool :=
  decide (0x8000000000000000 ≤ StatusValue)

/-- Status value `EFI_UNSUPPORTED`, the encoded error number 3. -/
def EFI_UNSUPPORTED : Nat := 0x8000000000000003

/-- Memory type `EfiACPIReclaimMemory`, value 9 in the EFI_MEMORY_TYPE
enumeration. -/
def EfiACPIReclaimMemory : Nat := 9

/-- Constant `SIZE_256MB` from the UEFI base definitions. -/
def SIZE_256MB : Nat := 0x10000000

/-- Signature macro `SIGNATURE_16 (A, B)` packing two ASCII code units
little-endian. -/
def SIGNATURE_16 (A B : Char) : Nat :=
  A.toNat ||| (B.toNat <<< 8)

/-- Signature macro `SIGNATURE_32 (A, B, C, D)`. -/
def SIGNATURE_32 (A B C D : Char) : Nat :=
  SIGNATURE_16 A B ||| (SIGNATURE_16 C D <<< 16)

/-- Modelled from the spec: the constant `INTEL_Q35_MCH_DEVICE_ID` of the
header IndustryStandard/Q35MchIch9.h, which is not under src/; the spec
gives its value as `0x29C0`. -/
def INTEL_Q35_MCH_DEVICE_ID : Nat := 0x29C0

/-- Memory types of the GCD memory space map that this driver
distinguishes (EFI_GCD_MEMORY_TYPE). -/
inductive EfiGcdMemoryType where
  | nonExistent
  | reserved
  | systemMemory
  | memoryMappedIo
  | persistent
  | moreReliable
deriving DecidableEq, Repr

/-- One GCD memory space descriptor (EFI_GCD_MEMORY_SPACE_DESCRIPTOR).
The image and device handle fields are opaque pointers never read by
this driver and are omitted. -/
structure EFI_GCD_MEMORY_SPACE_DESCRIPTOR where
  BaseAddress : Nat
  Length : Nat
  Capabilities : Nat
  Attributes : Nat
  GcdMemoryType : EfiGcdMemoryType
deriving DecidableEq, Repr

/-- Modelled from the spec: the record
CONFIDENTIAL_COMPUTING_SNP_BLOB_LOCATION of the header
Guid/ConfidentialComputingSevSnpBlob.h, which is not under src/.  Field
names are the ones the driver assigns; the sizes and offsets of the
44-byte on-wire layout are taken from the spec's table. -/
structure CONFIDENTIAL_COMPUTING_SNP_BLOB_LOCATION where
  Header : Nat
  Version : Nat
  Reserved : Nat
  SecretsPhysicalAddress : Nat
  SecretsSize : Nat
  Reserved1 : Nat
  CpuidPhysicalAddress : Nat
  CpuidLSize : Nat
  Reserved2 : Nat
deriving DecidableEq, Repr

/-- Four little-endian bytes of a 32-bit field. -/
def le32 (n : Nat) : List Nat :=
  [n % 256, n / 256 % 256, n / 65536 % 256, n / 16777216 % 256]

/-- Eight little-endian bytes of a 64-bit field. -/
def le64 (n : Nat) : List Nat :=
  le32 (n % 4294967296) ++ le32 (n / 4294967296)

/-- Modelled from the spec: the 44-byte on-wire layout of the blob, with
the field order and offsets of the spec's table (the defining header is
not under src/). -/
def blobBytes (b : CONFIDENTIAL_COMPUTING_SNP_BLOB_LOCATION) : List Nat :=
  le32 b.Header ++ le32 b.Version ++ le32 b.Reserved ++
  le64 b.SecretsPhysicalAddress ++ le32 b.SecretsSize ++ le32 b.Reserved1 ++
  le64 b.CpuidPhysicalAddress ++ le32 b.CpuidLSize ++ le32 b.Reserved2

/-- Read a little-endian 32-bit value at a byte offset. -/
def read32 (bytes : List Nat) (off : Nat) : Nat :=
  bytes.getD off 0 + bytes.getD (off + 1) 0 * 256 +
  bytes.getD (off + 2) 0 * 65536 + bytes.getD (off + 3) 0 * 16777216

/-- Read a little-endian 64-bit value at a byte offset. -/
def read64 (bytes : List Nat) (off : Nat) : Nat :=
  read32 bytes off + read32 bytes (off + 4) * 4294967296

/-- Modelled from the spec: size of the blob record, 44 bytes (the
defining header is not under src/). -/
def sizeofBlobLocation : Nat := 44

/-- Names of the driver functions that appear in DEBUG diagnostics. -/
inductive FnName where
  | memEncryptSevClearPageEncMask
  | allocateConfidentialComputingBlob
deriving DecidableEq, Repr

/-- Modelled from the spec: the GUID constant
`gConfidentialComputingSevSnpBlobGuid` (the well-known identifier of the
SNP blob); its defining declaration is not under src/, so it is modelled
as an abstract identifier. -/
inductive EfiGuid where
  | confidentialComputingSevSnpBlobGuid
deriving DecidableEq, Repr

/-- Observable collaborator invocations of the driver, in program
order. -/
inductive Event where
  | getMemorySpaceMap
  | clearMmioPageEncMask (Cr3BaseAddress BaseAddress NumPages : Nat)
  | freePool
  | locateSmramSaveStateMapPages
  | zeroMem (Buffer Length : Nat)
  | clearPageEncMask (Cr3BaseAddress BaseAddress NumPages : Nat)
  | allocatePool (MemoryType Size : Nat)
  | debugError (Fn : FnName) (Status : Nat)
  | assertFalse
  | installConfigurationTable (Guid : EfiGuid)
      (Table : Option CONFIDENTIAL_COMPUTING_SNP_BLOB_LOCATION)
deriving DecidableEq, Repr

/-- Outcome of a run: a returned status, or the CpuDeadLoop halt. -/
inductive Outcome where
  | ret (StatusValue : Nat)
  | halt
deriving DecidableEq, Repr

/-- Environment of mocked collaborators and build-time constants.  Each
fallible collaborator yields the status the mock chooses; output
parameters are paired with the status. -/
structure Env where
  memEncryptSevIsEnabled : Bool
  memEncryptSevSnpIsEnabled : Bool
  getMemorySpaceMap : Nat × List EFI_GCD_MEMORY_SPACE_DESCRIPTOR
  clearMmioPageEncMask : Nat → Nat → Nat → Nat
  clearPageEncMask : Nat → Nat → Nat → Nat
  locateSmramSaveStateMapPages : Nat × Nat × Nat
  allocatePool : Nat → Nat → Nat
  installConfigurationTable : Nat
  pcdOvmfHostBridgePciDevId : Nat
  pcdPciExpressBaseAddress : Nat
  pcdSmmSmramRequire : Bool
  pcdOvmfSnpSecretsBase : Nat
  pcdOvmfSnpSecretsSize : Nat
  pcdOvmfCpuidBase : Nat
  pcdOvmfCpuidSize : Nat

/-- Blob record as populated by `AllocateConfidentialComputingBlob`
(AmdSevDxe.c lines 42-50). -/
def ccBlobValue (env : Env) : CONFIDENTIAL_COMPUTING_SNP_BLOB_LOCATION :=
  { Header := SIGNATURE_32 'A' 'M' 'D' 'E'
    Version := 1
    Reserved := 0
    SecretsPhysicalAddress := env.pcdOvmfSnpSecretsBase
    SecretsSize := env.pcdOvmfSnpSecretsSize
    Reserved1 := 0
    CpuidPhysicalAddress := env.pcdOvmfCpuidBase
    CpuidLSize := env.pcdOvmfCpuidSize
    Reserved2 := 0 }

/-- Embedding of `AllocateConfidentialComputingBlob` (AmdSevDxe.c lines
26-55).  `ccBlobPtr` is the current content of the caller's pointer
variable; the returned triple is (status, new content of that variable,
events). -/
def AllocateConfidentialComputingBlob (env : Env)
    (ccBlobPtr : Option CONFIDENTIAL_COMPUTING_SNP_BLOB_LOCATION) :
    Nat × Option CONFIDENTIAL_COMPUTING_SNP_BLOB_LOCATION × List Event :=
  if EFI_ERROR (env.allocatePool EfiACPIReclaimMemory sizeofBlobLocation) then
    (env.allocatePool EfiACPIReclaimMemory sizeofBlobLocation, ccBlobPtr,
     [Event.allocatePool EfiACPIReclaimMemory sizeofBlobLocation])
  else
    (EFI_SUCCESS, some (ccBlobValue env),
     [Event.allocatePool EfiACPIReclaimMemory sizeofBlobLocation])

/-- Events contributed by one descriptor of the GCD sweep loop
(AmdSevDxe.c lines 86-100). -/
def sweepDescEvents (Desc : EFI_GCD_MEMORY_SPACE_DESCRIPTOR) : List Event :=
  if Desc.GcdMemoryType = EfiGcdMemoryType.memoryMappedIo
      ∨ Desc.GcdMemoryType = EfiGcdMemoryType.nonExistent then
    [Event.clearMmioPageEncMask 0 Desc.BaseAddress (EFI_SIZE_TO_PAGES Desc.Length)]
  else
    []

/-- Phase B sweep (AmdSevDxe.c lines 84-103): retrieve the GCD memory
space map, clear the C-bit of MMIO and NonExistent entries, free the
map.  ASSERT_EFI_ERROR on an individual clear has no release effect. -/
def sweepPhase (env : Env) : List Event :=
  Event.getMemorySpaceMap ::
    (if ¬ (EFI_ERROR env.getMemorySpaceMap.1 = true) then
      (env.getMemorySpaceMap.2.map sweepDescEvents).flatten ++ [Event.freePool]
    else [])

/-- MMCONFIG special case (AmdSevDxe.c lines 111-119). -/
def mmconfigPhase (env : Env) : List Event :=
  if env.pcdOvmfHostBridgePciDevId = INTEL_Q35_MCH_DEVICE_ID then
    [Event.clearMmioPageEncMask 0 env.pcdPciExpressBaseAddress
      (EFI_SIZE_TO_PAGES SIZE_256MB)]
  else
    []

/-- SMM save-state scrub (AmdSevDxe.c lines 140-172).  Returns whether
the phase entered CpuDeadLoop, and its events.  The ASSERT_EFI_ERROR
after the locate call has no release effect; the explicit
DEBUG / ASSERT (FALSE) / CpuDeadLoop on a clear failure halts. -/
def smmPhase (env : Env) : Bool × List Event :=
  if env.pcdSmmSmramRequire then
    if EFI_ERROR (env.clearPageEncMask 0 env.locateSmramSaveStateMapPages.2.1
        env.locateSmramSaveStateMapPages.2.2) then
      (true, [Event.locateSmramSaveStateMapPages,
              Event.zeroMem env.locateSmramSaveStateMapPages.2.1
                (EFI_PAGES_TO_SIZE env.locateSmramSaveStateMapPages.2.2),
              Event.clearPageEncMask 0 env.locateSmramSaveStateMapPages.2.1
                env.locateSmramSaveStateMapPages.2.2,
              Event.debugError FnName.memEncryptSevClearPageEncMask
                (env.clearPageEncMask 0 env.locateSmramSaveStateMapPages.2.1
                  env.locateSmramSaveStateMapPages.2.2),
              Event.assertFalse])
    else
      (false, [Event.locateSmramSaveStateMapPages,
               Event.zeroMem env.locateSmramSaveStateMapPages.2.1
                 (EFI_PAGES_TO_SIZE env.locateSmramSaveStateMapPages.2.2),
               Event.clearPageEncMask 0 env.locateSmramSaveStateMapPages.2.1
                 env.locateSmramSaveStateMapPages.2.2])
  else
    (false, [])

/-- Embedding of `AmdSevDxeEntryPoint` (AmdSevDxe.c lines 59-198).  The
local `SnpBootDxeTable` starts out unassigned (`none`). -/
def AmdSevDxeEntryPoint (env : Env) : Outcome × List Event :=
  if ¬ (env.memEncryptSevIsEnabled = true) then
    (Outcome.ret EFI_UNSUPPORTED, [])
  else if (smmPhase env).1 then
    (Outcome.halt, sweepPhase env ++ mmconfigPhase env ++ (smmPhase env).2)
  else if EFI_ERROR (AllocateConfidentialComputingBlob env none).1 then
    (Outcome.halt,
     sweepPhase env ++ mmconfigPhase env ++ (smmPhase env).2 ++
       (AllocateConfidentialComputingBlob env none).2.2 ++
       [Event.debugError FnName.allocateConfidentialComputingBlob
         (AllocateConfidentialComputingBlob env none).1,
        Event.assertFalse])
  else if env.memEncryptSevSnpIsEnabled then
    (Outcome.ret env.installConfigurationTable,
     sweepPhase env ++ mmconfigPhase env ++ (smmPhase env).2 ++
       (AllocateConfidentialComputingBlob env none).2.2 ++
       [Event.installConfigurationTable EfiGuid.confidentialComputingSevSnpBlobGuid
         (AllocateConfidentialComputingBlob env none).2.1])
  else
    (Outcome.ret EFI_SUCCESS,
     sweepPhase env ++ mmconfigPhase env ++ (smmPhase env).2 ++
       (AllocateConfidentialComputingBlob env none).2.2)

/-- Number of occurrences of one event in a trace. -/
def countEvent (a : Event) : List Event → Nat
  | [] => 0
  | e :: t => (if e = a then 1 else 0) + countEvent a t

/-- Number of configuration-table installations in a trace, with any
argument. -/
def countInstall : List Event → Nat
  | [] => 0
  | Event.installConfigurationTable _ _ :: t => 1 + countInstall t
  | _ :: t => countInstall t

/-- Number of descriptors of a map that the sweep must clear with the
given base and page count: kind MmioMapped or NonExistent, that base
address, and a length whose page count, rounded up at 4 KiB granularity,
is the given one. -/
def relevantDescCount (b p : Nat) : List EFI_GCD_MEMORY_SPACE_DESCRIPTOR → Nat
  | [] => 0
  | d :: t =>
    (if (d.GcdMemoryType = EfiGcdMemoryType.memoryMappedIo
          ∨ d.GcdMemoryType = EfiGcdMemoryType.nonExistent)
        ∧ d.BaseAddress = b ∧ (d.Length + 4095) / 4096 = p then 1 else 0) +
    relevantDescCount b p t
/-- Selector of the SMM-scrub observable events: the zeroing writes and
the page C-bit clears. -/
def isScrubEvent : Event → Bool
  | Event.zeroMem _ _ => true
  | Event.clearPageEncMask _ _ _ => true
  | _ => false

/-- Mock environment: SEV on, SNP off, Q35 host bridge, SMM flag off, a
three-entry memory space map, every collaborator succeeding. -/
def envBase : Env :=
  { memEncryptSevIsEnabled := true
    memEncryptSevSnpIsEnabled := false
    getMemorySpaceMap := (EFI_SUCCESS,
      [{ BaseAddress := 0xFED00000, Length := 0x1000, Capabilities := 0,
         Attributes := 0, GcdMemoryType := EfiGcdMemoryType.memoryMappedIo },
       { BaseAddress := 0, Length := 0x80000000, Capabilities := 0,
         Attributes := 0, GcdMemoryType := EfiGcdMemoryType.systemMemory },
       { BaseAddress := 0x100000000, Length := 0x10000000, Capabilities := 0,
         Attributes := 0, GcdMemoryType := EfiGcdMemoryType.nonExistent }])
    clearMmioPageEncMask := fun _ _ _ => EFI_SUCCESS
    clearPageEncMask := fun _ _ _ => EFI_SUCCESS
    locateSmramSaveStateMapPages := (EFI_SUCCESS, 0x7000, 3)
    allocatePool := fun _ _ => EFI_SUCCESS
    installConfigurationTable := EFI_SUCCESS
    pcdOvmfHostBridgePciDevId := 0x29C0
    pcdPciExpressBaseAddress := 0xB0000000
    pcdSmmSmramRequire := false
    pcdOvmfSnpSecretsBase := 0x80D000
    pcdOvmfSnpSecretsSize := 0x1000
    pcdOvmfCpuidBase := 0x80E000
    pcdOvmfCpuidSize := 0x1000 }

/-- Mock environment whose SEV query answers false. -/
def envNoSev : Env := { envBase with memEncryptSevIsEnabled := false }

/-- Mock environment whose pool allocator fails with
EFI_OUT_OF_RESOURCES. -/
def envAllocFails : Env := { envBase with allocatePool := fun _ _ => 0x8000000000000009 }

/-- Mock environment: SEV and SNP on, SMM flag on, host bridge not Q35,
every collaborator succeeding. -/
def envSnpSmm : Env :=
  { envBase with
    memEncryptSevSnpIsEnabled := true
    pcdSmmSmramRequire := true
    pcdOvmfHostBridgePciDevId := 0x1237 }

/-- Mock environment: SMM flag on and the locate-save-state collaborator
failing with EFI_NOT_FOUND, everything else succeeding. -/
def envLocateFails : Env :=
  { envSnpSmm with locateSmramSaveStateMapPages := (0x800000000000000E, 0x7000, 3) }

/-- Mock environment: SMM flag on and the page C-bit-clear collaborator
failing with EFI_DEVICE_ERROR. -/
def envClearPageFails : Env :=
  { envSnpSmm with clearPageEncMask := fun _ _ _ => 0x8000000000000007 }

/-- Mock environment whose memory-space-map retrieval fails. -/
def envMapFails : Env :=
  { envBase with getMemorySpaceMap := (0x8000000000000009, []) }

/-- Conversion of a byte size to a page count rounds up at 4 KiB
granularity. -/
theorem size_to_pages_eq_ceil (n : Nat) : EFI_SIZE_TO_PAGES n = (n + 4095) / 4096 := by
  have h1 : n >>> 12 = n / 4096 := by rw [Nat.shiftRight_eq_div_pow]
  have h2 : n &&& 0xFFF = n % 4096 := by
    have h : (0xFFF : Nat) = 2 ^ 12 - 1 := by norm_num
    rw [h, Nat.and_pow_two_sub_one_eq_mod]
  simp only [EFI_SIZE_TO_PAGES, EFI_PAGE_SHIFT, EFI_PAGE_MASK, h1, h2, bne_iff_ne, ne_eq]
  by_cases h : n % 4096 = 0 <;> (simp [h]; omega)

/-- Counting an event distributes over trace concatenation. -/
theorem countEvent_append (a : Event) (l r : List Event) :
    countEvent a (l ++ r) = countEvent a l + countEvent a r := by
  induction l with
  | nil => simp [countEvent]
  | cons e t ih => simp [countEvent, ih]; omega

/-- Counting installs distributes over trace concatenation. -/
theorem countInstall_append (l r : List Event) :
    countInstall (l ++ r) = countInstall l + countInstall r := by
  induction l with
  | nil => simp [countInstall]
  | cons e t ih =>
    cases e <;> (simp [countInstall, ih]; try omega)

/-- Reading a 32-bit value four bytes further into the list. -/
theorem read32_peel4 (a b c d : Nat) (r : List Nat) (i : Nat) :
    read32 (a :: b :: c :: d :: r) (i + 4) = read32 r i := rfl

/-- Reading the 32-bit value at the head of the list. -/
theorem read32_head (a b c d : Nat) (r : List Nat) :
    read32 (a :: b :: c :: d :: r) 0 = a + b * 256 + c * 65536 + d * 16777216 := rfl

/-- Reading a 64-bit value four bytes further into the list. -/
theorem read64_peel4 (a b c d : Nat) (r : List Nat) (i : Nat) :
    read64 (a :: b :: c :: d :: r) (i + 4) = read64 r i := rfl

/-- Reading the 64-bit value at the head of the list. -/
theorem read64_head (a b c d e f g h : Nat) (r : List Nat) :
    read64 (a :: b :: c :: d :: e :: f :: g :: h :: r) 0 =
      (a + b * 256 + c * 65536 + d * 16777216) +
      (e + f * 256 + g * 65536 + h * 16777216) * 4294967296 := rfl

/-- C4: when the SEV-enabled query answers false, the entry point
returns the distinguished EFI_UNSUPPORTED status immediately, with an
empty trace: no descriptor-map retrieval, no C-bit clear, no zeroing, no
allocation, no configuration-table install. -/
theorem entry_without_sev_returns_unsupported_no_side_effects (env : Env)
    (h : env.memEncryptSevIsEnabled = false) :
    AmdSevDxeEntryPoint env = (Outcome.ret EFI_UNSUPPORTED, []) := by
  simp [AmdSevDxeEntryPoint, h]

/-- Witness for C4 at a concrete environment. -/
theorem entry_without_sev_witness :
    envNoSev.memEncryptSevIsEnabled = false ∧
    AmdSevDxeEntryPoint envNoSev = (Outcome.ret EFI_UNSUPPORTED, []) :=
  ⟨rfl, entry_without_sev_returns_unsupported_no_side_effects envNoSev rfl⟩

/-- C10: when the pool allocation fails the helper returns the
allocator's status and the caller's pointer variable keeps its previous
content; only the success path assigns it, namely to the populated
blob. -/
theorem allocate_blob_error_leaves_pointer_unchanged (env : Env)
    (ptr0 : Option CONFIDENTIAL_COMPUTING_SNP_BLOB_LOCATION) :
    (EFI_ERROR (env.allocatePool EfiACPIReclaimMemory sizeofBlobLocation) = true →
      AllocateConfidentialComputingBlob env ptr0 =
        (env.allocatePool EfiACPIReclaimMemory sizeofBlobLocation, ptr0,
         [Event.allocatePool EfiACPIReclaimMemory sizeofBlobLocation])) ∧
    (EFI_ERROR (env.allocatePool EfiACPIReclaimMemory sizeofBlobLocation) = false →
      (AllocateConfidentialComputingBlob env ptr0).1 = EFI_SUCCESS ∧
      (AllocateConfidentialComputingBlob env ptr0).2.1 = some (ccBlobValue env)) := by
  constructor <;> intro h <;> simp [AllocateConfidentialComputingBlob, h]

/-- Witness for C10 at a concrete environment. -/
theorem allocate_blob_error_witness :
    AllocateConfidentialComputingBlob envAllocFails none =
      (envAllocFails.allocatePool EfiACPIReclaimMemory sizeofBlobLocation, none,
       [Event.allocatePool EfiACPIReclaimMemory sizeofBlobLocation]) :=
  (allocate_blob_error_leaves_pointer_unchanged envAllocFails none).1 (by decide)

/-- C2: on every successful run of the blob-allocation step the 44 blob
bytes follow the fixed layout: signature 0x45444D41 at offset 0, version
1 at offset 4, the secrets base and size at offsets 12 and 20, the cpuid
base and size at offsets 28 and 36, and zero at the reserved offsets 8,
24 and 40. -/
theorem blob_layout_matches_table (env : Env)
    (ptr0 : Option CONFIDENTIAL_COMPUTING_SNP_BLOB_LOCATION)
    (hok : EFI_ERROR (env.allocatePool EfiACPIReclaimMemory sizeofBlobLocation) = false)
    (h1 : env.pcdOvmfSnpSecretsBase < 4294967296)
    (h2 : env.pcdOvmfSnpSecretsSize < 4294967296)
    (h3 : env.pcdOvmfCpuidBase < 4294967296)
    (h4 : env.pcdOvmfCpuidSize < 4294967296) :
    ∃ b, (AllocateConfidentialComputingBlob env ptr0).2.1 = some b ∧
      (blobBytes b).length = 44 ∧
      read32 (blobBytes b) 0 = 0x45444D41 ∧
      read32 (blobBytes b) 4 = 1 ∧
      read32 (blobBytes b) 8 = 0 ∧
      read64 (blobBytes b) 12 = env.pcdOvmfSnpSecretsBase ∧
      read32 (blobBytes b) 20 = env.pcdOvmfSnpSecretsSize ∧
      read32 (blobBytes b) 24 = 0 ∧
      read64 (blobBytes b) 28 = env.pcdOvmfCpuidBase ∧
      read32 (blobBytes b) 36 = env.pcdOvmfCpuidSize ∧
      read32 (blobBytes b) 40 = 0 := by
  have hsig : SIGNATURE_32 'A' 'M' 'D' 'E' = 0x45444D41 := by decide
  refine ⟨ccBlobValue env, by simp [AllocateConfidentialComputingBlob, hok],
    rfl, ?_, ?_, ?_, ?_, ?_, ?_, ?_, ?_, ?_⟩
  · simp only [blobBytes, ccBlobValue, le32, le64, List.cons_append, List.nil_append]
    rw [hsig, read32_head]
  · simp only [blobBytes, ccBlobValue, le32, le64, List.cons_append, List.nil_append]
    rw [show (4 : Nat) = 0 + 4 by norm_num, read32_peel4, read32_head]
  · simp only [blobBytes, ccBlobValue, le32, le64, List.cons_append, List.nil_append]
    rw [show (8 : Nat) = 0 + 4 + 4 by norm_num, read32_peel4, read32_peel4, read32_head]
  · simp only [blobBytes, ccBlobValue, le32, le64, List.cons_append, List.nil_append]
    rw [show (12 : Nat) = 0 + 4 + 4 + 4 by norm_num, read64_peel4, read64_peel4,
      read64_peel4, read64_head]
    omega
  · simp only [blobBytes, ccBlobValue, le32, le64, List.cons_append, List.nil_append]
    rw [show (20 : Nat) = 0 + 4 + 4 + 4 + 4 + 4 by norm_num, read32_peel4, read32_peel4,
      read32_peel4, read32_peel4, read32_peel4, read32_head]
    omega
  · simp only [blobBytes, ccBlobValue, le32, le64, List.cons_append, List.nil_append]
    rw [show (24 : Nat) = 0 + 4 + 4 + 4 + 4 + 4 + 4 by norm_num, read32_peel4,
      read32_peel4, read32_peel4, read32_peel4, read32_peel4, read32_peel4, read32_head]
  · simp only [blobBytes, ccBlobValue, le32, le64, List.cons_append, List.nil_append]
    rw [show (28 : Nat) = 0 + 4 + 4 + 4 + 4 + 4 + 4 + 4 by norm_num, read64_peel4,
      read64_peel4, read64_peel4, read64_peel4, read64_peel4, read64_peel4, read64_peel4,
      read64_head]
    omega
  · simp only [blobBytes, ccBlobValue, le32, le64, List.cons_append, List.nil_append]
    rw [show (36 : Nat) = 0 + 4 + 4 + 4 + 4 + 4 + 4 + 4 + 4 + 4 by norm_num, read32_peel4,
      read32_peel4, read32_peel4, read32_peel4, read32_peel4, read32_peel4, read32_peel4,
      read32_peel4, read32_peel4, read32_head]
    omega
  · simp only [blobBytes, ccBlobValue, le32, le64, List.cons_append, List.nil_append]
    rw [show (40 : Nat) = 0 + 4 + 4 + 4 + 4 + 4 + 4 + 4 + 4 + 4 + 4 by norm_num,
      read32_peel4, read32_peel4, read32_peel4, read32_peel4, read32_peel4, read32_peel4,
      read32_peel4, read32_peel4, read32_peel4, read32_peel4, read32_head]

/-- Witness for C2 at a concrete environment. -/
theorem blob_layout_witness :
    EFI_ERROR (envBase.allocatePool EfiACPIReclaimMemory sizeofBlobLocation) = false ∧
    envBase.pcdOvmfSnpSecretsBase < 4294967296 ∧
    envBase.pcdOvmfSnpSecretsSize < 4294967296 ∧
    envBase.pcdOvmfCpuidBase < 4294967296 ∧
    envBase.pcdOvmfCpuidSize < 4294967296 ∧
    (∃ b, (AllocateConfidentialComputingBlob envBase none).2.1 = some b ∧
      (blobBytes b).length = 44 ∧
      read32 (blobBytes b) 0 = 0x45444D41 ∧
      read32 (blobBytes b) 4 = 1 ∧
      read32 (blobBytes b) 8 = 0 ∧
      read64 (blobBytes b) 12 = envBase.pcdOvmfSnpSecretsBase ∧
      read32 (blobBytes b) 20 = envBase.pcdOvmfSnpSecretsSize ∧
      read32 (blobBytes b) 24 = 0 ∧
      read64 (blobBytes b) 28 = envBase.pcdOvmfCpuidBase ∧
      read32 (blobBytes b) 36 = envBase.pcdOvmfCpuidSize ∧
      read32 (blobBytes b) 40 = 0) :=
  ⟨by decide, by decide, by decide, by decide, by decide,
   blob_layout_matches_table envBase none (by decide) (by decide) (by decide)
     (by decide) (by decide)⟩

/-- Count of one MMIO-clear event among the events of the sweep loop
body over a descriptor list. -/
theorem countEvent_clear_sweep (c b p : Nat) (l : List EFI_GCD_MEMORY_SPACE_DESCRIPTOR) :
    countEvent (Event.clearMmioPageEncMask c b p) (l.map sweepDescEvents).flatten =
      if c = 0 then relevantDescCount b p l else 0 := by
  induction l with
  | nil => simp [countEvent, relevantDescCount]
  | cons d t ih =>
    rw [List.map_cons, List.flatten_cons, countEvent_append, ih]
    by_cases hc : c = 0
    · subst hc
      simp only [if_pos rfl, relevantDescCount]
      have h5 : countEvent (Event.clearMmioPageEncMask 0 b p) (sweepDescEvents d) =
          if (d.GcdMemoryType = EfiGcdMemoryType.memoryMappedIo
              ∨ d.GcdMemoryType = EfiGcdMemoryType.nonExistent)
             ∧ d.BaseAddress = b ∧ (d.Length + 4095) / 4096 = p then 1 else 0 := by
        by_cases hrel : d.GcdMemoryType = EfiGcdMemoryType.memoryMappedIo
            ∨ d.GcdMemoryType = EfiGcdMemoryType.nonExistent
        · simp only [sweepDescEvents, if_pos hrel, countEvent, size_to_pages_eq_ceil]
          by_cases hb : d.BaseAddress = b <;>
            by_cases hp : (d.Length + 4095) / 4096 = p <;>
              simp [hrel, hb, hp]
        · simp [sweepDescEvents, hrel, countEvent]
      rw [h5]
      split_ifs <;> omega
    · simp only [if_neg hc]
      have h5 : countEvent (Event.clearMmioPageEncMask c b p) (sweepDescEvents d) = 0 := by
        by_cases hrel : d.GcdMemoryType = EfiGcdMemoryType.memoryMappedIo
            ∨ d.GcdMemoryType = EfiGcdMemoryType.nonExistent
        · simp only [sweepDescEvents, if_pos hrel, countEvent]
          have hne : Event.clearMmioPageEncMask 0 d.BaseAddress
              (EFI_SIZE_TO_PAGES d.Length) ≠ Event.clearMmioPageEncMask c b p := by
            intro h
            exact hc (Event.clearMmioPageEncMask.inj h).1.symm
          simp [hne]
        · simp [sweepDescEvents, hrel, countEvent]
      rw [h5]

/-- Any SEV-enabled run's trace begins with the Phase B events: the
sweep followed by the MMCONFIG special case. -/
theorem entry_trace_structure (env : Env) (hsev : env.memEncryptSevIsEnabled = true) :
    ∃ rest, (AmdSevDxeEntryPoint env).2 = sweepPhase env ++ mmconfigPhase env ++ rest := by
  unfold AmdSevDxeEntryPoint
  rw [if_neg (by simp [hsev])]
  by_cases h1 : (smmPhase env).1 = true
  · rw [if_pos h1]
    exact ⟨(smmPhase env).2, by simp [List.append_assoc]⟩
  · rw [if_neg h1]
    by_cases h2 : EFI_ERROR (AllocateConfidentialComputingBlob env none).1 = true
    · rw [if_pos h2]
      exact ⟨(smmPhase env).2 ++ ((AllocateConfidentialComputingBlob env none).2.2 ++
        [Event.debugError FnName.allocateConfidentialComputingBlob
          (AllocateConfidentialComputingBlob env none).1,
         Event.assertFalse]), by simp [List.append_assoc]⟩
    · rw [if_neg h2]
      by_cases h3 : env.memEncryptSevSnpIsEnabled = true
      · rw [if_pos h3]
        exact ⟨(smmPhase env).2 ++ ((AllocateConfidentialComputingBlob env none).2.2 ++
          [Event.installConfigurationTable EfiGuid.confidentialComputingSevSnpBlobGuid
            (AllocateConfidentialComputingBlob env none).2.1]),
          by simp [List.append_assoc]⟩
      · rw [if_neg h3]
        exact ⟨(smmPhase env).2 ++ (AllocateConfidentialComputingBlob env none).2.2,
          by simp [List.append_assoc]⟩

/-- C1: when SEV is enabled and the memory-space map is retrieved
successfully, the run's trace contains the Phase B sweep, and in the
sweep the MMIO C-bit-clear operation is invoked exactly once with
arguments (0, base, ceil(length / 4096)) for every descriptor of kind
MmioMapped or NonExistent, and never for a descriptor of any other
kind. -/
theorem sweep_clears_each_relevant_descriptor_exactly_once (env : Env)
    (hsev : env.memEncryptSevIsEnabled = true)
    (hok : EFI_ERROR env.getMemorySpaceMap.1 = false) :
    (∃ rest, (AmdSevDxeEntryPoint env).2 = sweepPhase env ++ mmconfigPhase env ++ rest) ∧
    ∀ c b p, countEvent (Event.clearMmioPageEncMask c b p) (sweepPhase env) =
      if c = 0 then relevantDescCount b p env.getMemorySpaceMap.2 else 0 := by
  refine ⟨entry_trace_structure env hsev, fun c b p => ?_⟩
  unfold sweepPhase
  rw [if_pos (by simp [hok])]
  simp only [countEvent, countEvent_append]
  rw [countEvent_clear_sweep]
  simp [countEvent]

/-- Witness for C1 at a concrete environment. -/
theorem sweep_clears_witness :
    envBase.memEncryptSevIsEnabled = true ∧
    EFI_ERROR envBase.getMemorySpaceMap.1 = false ∧
    ((∃ rest, (AmdSevDxeEntryPoint envBase).2 =
        sweepPhase envBase ++ mmconfigPhase envBase ++ rest) ∧
     ∀ c b p, countEvent (Event.clearMmioPageEncMask c b p) (sweepPhase envBase) =
       if c = 0 then relevantDescCount b p envBase.getMemorySpaceMap.2 else 0) :=
  ⟨rfl, by decide,
   sweep_clears_each_relevant_descriptor_exactly_once envBase rfl (by decide)⟩

/-- The blob-allocation helper performs exactly one pool allocation,
on both of its paths. -/
theorem allocate_blob_events (env : Env)
    (ptr0 : Option CONFIDENTIAL_COMPUTING_SNP_BLOB_LOCATION) :
    (AllocateConfidentialComputingBlob env ptr0).2.2 =
      [Event.allocatePool EfiACPIReclaimMemory sizeofBlobLocation] := by
  unfold AllocateConfidentialComputingBlob
  split <;> rfl

/-- Full characterization of the trace of an SEV-enabled run, by the
branch conditions of the entry point. -/
theorem entry_trace_cases (env : Env) (hsev : env.memEncryptSevIsEnabled = true) :
    (AmdSevDxeEntryPoint env).2 =
      sweepPhase env ++ mmconfigPhase env ++ (smmPhase env).2 ++
      (if (smmPhase env).1 then []
       else Event.allocatePool EfiACPIReclaimMemory sizeofBlobLocation ::
         (if EFI_ERROR (AllocateConfidentialComputingBlob env none).1 then
            [Event.debugError FnName.allocateConfidentialComputingBlob
              (AllocateConfidentialComputingBlob env none).1,
             Event.assertFalse]
          else if env.memEncryptSevSnpIsEnabled then
            [Event.installConfigurationTable EfiGuid.confidentialComputingSevSnpBlobGuid
              (AllocateConfidentialComputingBlob env none).2.1]
          else [])) := by
  unfold AmdSevDxeEntryPoint
  rw [if_neg (by simp [hsev])]
  by_cases h1 : (smmPhase env).1 = true
  · rw [if_pos h1]
    simp [h1]
  · rw [if_neg h1]
    by_cases h2 : EFI_ERROR (AllocateConfidentialComputingBlob env none).1 = true
    · rw [if_pos h2]
      simp [h1, h2, allocate_blob_events, List.append_assoc]
    · rw [if_neg h2]
      by_cases h3 : env.memEncryptSevSnpIsEnabled = true
      · rw [if_pos h3]
        simp [h1, h2, h3, allocate_blob_events, List.append_assoc]
      · rw [if_neg h3]
        simp [h1, h2, h3, allocate_blob_events, List.append_assoc]

/-- Full characterization of the outcome of an SEV-enabled run, by the
branch conditions of the entry point. -/
theorem entry_outcome_cases (env : Env) (hsev : env.memEncryptSevIsEnabled = true) :
    (AmdSevDxeEntryPoint env).1 =
      if (smmPhase env).1 then Outcome.halt
      else if EFI_ERROR (AllocateConfidentialComputingBlob env none).1 then Outcome.halt
      else if env.memEncryptSevSnpIsEnabled then Outcome.ret env.installConfigurationTable
      else Outcome.ret EFI_SUCCESS := by
  unfold AmdSevDxeEntryPoint
  rw [if_neg (by simp [hsev])]
  split_ifs <;> rfl

/-- The 256 MiB MMCONFIG window spans 65536 pages. -/
theorem size_to_pages_256mb : EFI_SIZE_TO_PAGES SIZE_256MB = 65536 := by decide

/-- Conversion of a page count to a byte size multiplies by 4096. -/
theorem pages_to_size_eq_mul (n : Nat) : EFI_PAGES_TO_SIZE n = n * 4096 := by
  have h : n <<< 12 = n * 2 ^ 12 := Nat.shiftLeft_eq n 12
  simp only [EFI_PAGES_TO_SIZE, EFI_PAGE_SHIFT, h]
  norm_num

/-- The sweep loop body never emits a pool release. -/
theorem countEvent_freePool_flatten (l : List EFI_GCD_MEMORY_SPACE_DESCRIPTOR) :
    countEvent Event.freePool (l.map sweepDescEvents).flatten = 0 := by
  induction l with
  | nil => simp [countEvent]
  | cons d t ih =>
    rw [List.map_cons, List.flatten_cons, countEvent_append, ih]
    unfold sweepDescEvents
    split <;> simp [countEvent]

/-- The MMCONFIG phase never emits a pool release. -/
theorem countEvent_freePool_mmconfig (env : Env) :
    countEvent Event.freePool (mmconfigPhase env) = 0 := by
  unfold mmconfigPhase
  split <;> simp [countEvent]

/-- The SMM scrub phase never emits a pool release. -/
theorem countEvent_freePool_smm (env : Env) :
    countEvent Event.freePool (smmPhase env).2 = 0 := by
  unfold smmPhase
  split
  · split <;> simp [countEvent]
  · simp [countEvent]

/-- The sweep loop body never installs a configuration table. -/
theorem countInstall_flatten (l : List EFI_GCD_MEMORY_SPACE_DESCRIPTOR) :
    countInstall (l.map sweepDescEvents).flatten = 0 := by
  induction l with
  | nil => simp [countInstall]
  | cons d t ih =>
    rw [List.map_cons, List.flatten_cons, countInstall_append, ih]
    unfold sweepDescEvents
    split <;> simp [countInstall]

/-- The sweep phase never installs a configuration table. -/
theorem countInstall_sweepPhase (env : Env) :
    countInstall (sweepPhase env) = 0 := by
  unfold sweepPhase
  split
  · simp [countInstall, countInstall_append, countInstall_flatten]
  · simp [countInstall]

/-- The MMCONFIG phase never installs a configuration table. -/
theorem countInstall_mmconfig (env : Env) :
    countInstall (mmconfigPhase env) = 0 := by
  unfold mmconfigPhase
  split <;> simp [countInstall]

/-- The SMM scrub phase never installs a configuration table. -/
theorem countInstall_smm (env : Env) :
    countInstall (smmPhase env).2 = 0 := by
  unfold smmPhase
  split
  · split <;> simp [countInstall]
  · simp [countInstall]

/-- The sweep loop body emits no scrub event. -/
theorem filter_scrub_flatten (l : List EFI_GCD_MEMORY_SPACE_DESCRIPTOR) :
    (l.map sweepDescEvents).flatten.filter isScrubEvent = [] := by
  induction l with
  | nil => simp
  | cons d t ih =>
    rw [List.map_cons, List.flatten_cons, List.filter_append, ih]
    unfold sweepDescEvents
    split <;> simp [isScrubEvent]

/-- The sweep phase emits no scrub event. -/
theorem filter_scrub_sweepPhase (env : Env) :
    (sweepPhase env).filter isScrubEvent = [] := by
  unfold sweepPhase
  split
  · simp only [List.filter_cons, List.filter_append, filter_scrub_flatten]
    simp [isScrubEvent]
  · simp [isScrubEvent]

/-- The MMCONFIG phase emits no scrub event. -/
theorem filter_scrub_mmconfig (env : Env) :
    (mmconfigPhase env).filter isScrubEvent = [] := by
  unfold mmconfigPhase
  split <;> simp [isScrubEvent]

/-- C7: when SEV is enabled the trace contains, right after the sweep,
the MMCONFIG segment; that segment is exactly one additional MMIO
C-bit-clear call with arguments (0, PcdPciExpressBaseAddress, 65536)
when the host-bridge device id is 0x29C0, and is empty when the device
id differs. -/
theorem mmconfig_extra_clear_iff_q35 (env : Env)
    (hsev : env.memEncryptSevIsEnabled = true) :
    (∃ rest, (AmdSevDxeEntryPoint env).2 =
      sweepPhase env ++ (mmconfigPhase env ++ rest)) ∧
    (env.pcdOvmfHostBridgePciDevId = 0x29C0 →
      mmconfigPhase env =
        [Event.clearMmioPageEncMask 0 env.pcdPciExpressBaseAddress 65536]) ∧
    (env.pcdOvmfHostBridgePciDevId ≠ 0x29C0 → mmconfigPhase env = []) := by
  refine ⟨?_, fun h => ?_, fun h => ?_⟩
  · obtain ⟨rest, hr⟩ := entry_trace_structure env hsev
    exact ⟨rest, by rw [hr, List.append_assoc]⟩
  · unfold mmconfigPhase
    rw [if_pos (show env.pcdOvmfHostBridgePciDevId = INTEL_Q35_MCH_DEVICE_ID from h),
      size_to_pages_256mb]
  · unfold mmconfigPhase
    rw [if_neg (show ¬ env.pcdOvmfHostBridgePciDevId = INTEL_Q35_MCH_DEVICE_ID from h)]

/-- Witness for C7 at a concrete environment. -/
theorem mmconfig_extra_clear_witness :
    envBase.memEncryptSevIsEnabled = true ∧
    envBase.pcdOvmfHostBridgePciDevId = 0x29C0 ∧
    ((∃ rest, (AmdSevDxeEntryPoint envBase).2 =
       sweepPhase envBase ++ (mmconfigPhase envBase ++ rest)) ∧
     (envBase.pcdOvmfHostBridgePciDevId = 0x29C0 →
       mmconfigPhase envBase =
         [Event.clearMmioPageEncMask 0 envBase.pcdPciExpressBaseAddress 65536]) ∧
     (envBase.pcdOvmfHostBridgePciDevId ≠ 0x29C0 → mmconfigPhase envBase = [])) :=
  ⟨rfl, rfl, mmconfig_extra_clear_iff_q35 envBase rfl⟩

/-- C8: when the memory-space-map retrieval fails, the sweep performs no
clear and no release and the run still proceeds to the MMCONFIG special
case, the SMM scrub and (when the scrub does not halt) the blob
allocation; when the retrieval succeeds, the descriptor-map buffer is
released exactly once, as the last event of the sweep, whatever the
statuses of the individual clear calls are. -/
theorem map_failure_skips_sweep_and_buffer_freed_once (env : Env)
    (hsev : env.memEncryptSevIsEnabled = true) :
    (EFI_ERROR env.getMemorySpaceMap.1 = true →
      sweepPhase env = [Event.getMemorySpaceMap] ∧
      (∃ rest, (AmdSevDxeEntryPoint env).2 =
        Event.getMemorySpaceMap :: (mmconfigPhase env ++ ((smmPhase env).2 ++ rest))) ∧
      ((smmPhase env).1 = false →
        Event.allocatePool EfiACPIReclaimMemory sizeofBlobLocation ∈
          (AmdSevDxeEntryPoint env).2)) ∧
    (EFI_ERROR env.getMemorySpaceMap.1 = false →
      countEvent Event.freePool (AmdSevDxeEntryPoint env).2 = 1 ∧
      ∃ clears, sweepPhase env =
        Event.getMemorySpaceMap :: (clears ++ [Event.freePool]) ∧
        countEvent Event.freePool clears = 0) := by
  constructor
  · intro hfail
    have hsw : sweepPhase env = [Event.getMemorySpaceMap] := by
      unfold sweepPhase
      rw [if_neg (by simp [hfail])]
    refine ⟨hsw, ?_, ?_⟩
    · refine ⟨(if (smmPhase env).1 then []
        else Event.allocatePool EfiACPIReclaimMemory sizeofBlobLocation ::
          (if EFI_ERROR (AllocateConfidentialComputingBlob env none).1 then
             [Event.debugError FnName.allocateConfidentialComputingBlob
               (AllocateConfidentialComputingBlob env none).1,
              Event.assertFalse]
           else if env.memEncryptSevSnpIsEnabled then
             [Event.installConfigurationTable EfiGuid.confidentialComputingSevSnpBlobGuid
               (AllocateConfidentialComputingBlob env none).2.1]
           else [])), ?_⟩
      rw [entry_trace_cases env hsev, hsw]
      simp [List.append_assoc]
    · intro hnohalt
      rw [entry_trace_cases env hsev]
      simp [hnohalt]
  · intro hok
    constructor
    · rw [entry_trace_cases env hsev]
      simp only [countEvent_append, countEvent_freePool_mmconfig, countEvent_freePool_smm]
      have hsw : countEvent Event.freePool (sweepPhase env) = 1 := by
        unfold sweepPhase
        rw [if_pos (by simp [hok])]
        simp only [countEvent, countEvent_append, countEvent_freePool_flatten]
        simp [countEvent]
      rw [hsw]
      split_ifs <;> simp [countEvent]
    · refine ⟨(env.getMemorySpaceMap.2.map sweepDescEvents).flatten, ?_, ?_⟩
      · unfold sweepPhase
        rw [if_pos (by simp [hok])]
      · exact countEvent_freePool_flatten env.getMemorySpaceMap.2

/-- Witness for C8 at a concrete environment whose map retrieval
fails. -/
theorem map_failure_witness :
    envMapFails.memEncryptSevIsEnabled = true ∧
    EFI_ERROR envMapFails.getMemorySpaceMap.1 = true ∧
    ((EFI_ERROR envMapFails.getMemorySpaceMap.1 = true →
      sweepPhase envMapFails = [Event.getMemorySpaceMap] ∧
      (∃ rest, (AmdSevDxeEntryPoint envMapFails).2 =
        Event.getMemorySpaceMap ::
          (mmconfigPhase envMapFails ++ ((smmPhase envMapFails).2 ++ rest))) ∧
      ((smmPhase envMapFails).1 = false →
        Event.allocatePool EfiACPIReclaimMemory sizeofBlobLocation ∈
          (AmdSevDxeEntryPoint envMapFails).2)) ∧
     (EFI_ERROR envMapFails.getMemorySpaceMap.1 = false →
      countEvent Event.freePool (AmdSevDxeEntryPoint envMapFails).2 = 1 ∧
      ∃ clears, sweepPhase envMapFails =
        Event.getMemorySpaceMap :: (clears ++ [Event.freePool]) ∧
        countEvent Event.freePool clears = 0)) :=
  ⟨rfl, by decide, map_failure_skips_sweep_and_buffer_freed_once envMapFails rfl⟩

/-- C3: after a successful blob allocation (and a non-fatal scrub), the
configuration-table install happens exactly when SNP is enabled; when it
happens its arguments are the SNP-blob GUID and the populated blob and
its status is the routine's return status; when SNP is disabled the
routine returns EFI_SUCCESS without installing. -/
theorem install_configuration_table_iff_snp (env : Env)
    (hsev : env.memEncryptSevIsEnabled = true)
    (hnohalt : (smmPhase env).1 = false)
    (hok : EFI_ERROR (env.allocatePool EfiACPIReclaimMemory sizeofBlobLocation) = false) :
    (countInstall (AmdSevDxeEntryPoint env).2 =
      if env.memEncryptSevSnpIsEnabled then 1 else 0) ∧
    (env.memEncryptSevSnpIsEnabled = true →
      (AmdSevDxeEntryPoint env).1 = Outcome.ret env.installConfigurationTable ∧
      Event.installConfigurationTable EfiGuid.confidentialComputingSevSnpBlobGuid
        (some (ccBlobValue env)) ∈ (AmdSevDxeEntryPoint env).2) ∧
    (env.memEncryptSevSnpIsEnabled = false →
      (AmdSevDxeEntryPoint env).1 = Outcome.ret EFI_SUCCESS) := by
  have halloc : EFI_ERROR (AllocateConfidentialComputingBlob env none).1 = false := by
    have h0 : EFI_ERROR EFI_SUCCESS = false := by decide
    simp [AllocateConfidentialComputingBlob, hok, h0]
  have hptr : (AllocateConfidentialComputingBlob env none).2.1 = some (ccBlobValue env) := by
    simp [AllocateConfidentialComputingBlob, hok]
  refine ⟨?_, fun hsnp => ⟨?_, ?_⟩, fun hsnp => ?_⟩
  · rw [entry_trace_cases env hsev, countInstall_append, countInstall_append,
      countInstall_append, countInstall_sweepPhase, countInstall_mmconfig,
      countInstall_smm]
    by_cases hsnp : env.memEncryptSevSnpIsEnabled = true <;>
      simp [hnohalt, halloc, hsnp, countInstall]
  · rw [entry_outcome_cases env hsev]
    simp [hnohalt, halloc, hsnp]
  · rw [entry_trace_cases env hsev]
    simp [hnohalt, halloc, hsnp, hptr]
  · rw [entry_outcome_cases env hsev]
    simp [hnohalt, halloc, hsnp]

/-- Witness for C3 at a concrete environment with SNP enabled. -/
theorem install_configuration_table_witness :
    envSnpSmm.memEncryptSevIsEnabled = true ∧
    (smmPhase envSnpSmm).1 = false ∧
    EFI_ERROR (envSnpSmm.allocatePool EfiACPIReclaimMemory sizeofBlobLocation) = false ∧
    ((countInstall (AmdSevDxeEntryPoint envSnpSmm).2 =
       if envSnpSmm.memEncryptSevSnpIsEnabled then 1 else 0) ∧
     (envSnpSmm.memEncryptSevSnpIsEnabled = true →
       (AmdSevDxeEntryPoint envSnpSmm).1 =
         Outcome.ret envSnpSmm.installConfigurationTable ∧
       Event.installConfigurationTable EfiGuid.confidentialComputingSevSnpBlobGuid
         (some (ccBlobValue envSnpSmm)) ∈ (AmdSevDxeEntryPoint envSnpSmm).2) ∧
     (envSnpSmm.memEncryptSevSnpIsEnabled = false →
       (AmdSevDxeEntryPoint envSnpSmm).1 = Outcome.ret EFI_SUCCESS)) :=
  ⟨rfl, by decide, by decide,
   install_configuration_table_iff_snp envSnpSmm rfl (by decide) (by decide)⟩

/-- C6: when the SMM flag is set, the scrub-observable events of the
whole run are exactly one zeroing of the full save-state region
(page_count times 4096 bytes from the located base) followed by one
page C-bit-clear of that same region: the zeroing happens strictly
before the clear, and never after or without it. -/
theorem smm_save_state_zeroed_before_clear (env : Env)
    (hsev : env.memEncryptSevIsEnabled = true)
    (hsmm : env.pcdSmmSmramRequire = true) :
    (AmdSevDxeEntryPoint env).2.filter isScrubEvent =
      [Event.zeroMem env.locateSmramSaveStateMapPages.2.1
        (env.locateSmramSaveStateMapPages.2.2 * 4096),
       Event.clearPageEncMask 0 env.locateSmramSaveStateMapPages.2.1
         env.locateSmramSaveStateMapPages.2.2] := by
  rw [entry_trace_cases env hsev]
  simp only [List.filter_append, filter_scrub_sweepPhase, filter_scrub_mmconfig,
    List.nil_append]
  have hsmm2 : (smmPhase env).2.filter isScrubEvent =
      [Event.zeroMem env.locateSmramSaveStateMapPages.2.1
        (env.locateSmramSaveStateMapPages.2.2 * 4096),
       Event.clearPageEncMask 0 env.locateSmramSaveStateMapPages.2.1
         env.locateSmramSaveStateMapPages.2.2] := by
    unfold smmPhase
    rw [if_pos hsmm]
    split <;> simp [isScrubEvent, pages_to_size_eq_mul]
  rw [hsmm2]
  split_ifs <;> simp [isScrubEvent]

/-- Witness for C6 at a concrete environment. -/
theorem smm_zero_before_clear_witness :
    envSnpSmm.memEncryptSevIsEnabled = true ∧
    envSnpSmm.pcdSmmSmramRequire = true ∧
    (AmdSevDxeEntryPoint envSnpSmm).2.filter isScrubEvent =
      [Event.zeroMem envSnpSmm.locateSmramSaveStateMapPages.2.1
        (envSnpSmm.locateSmramSaveStateMapPages.2.2 * 4096),
       Event.clearPageEncMask 0 envSnpSmm.locateSmramSaveStateMapPages.2.1
         envSnpSmm.locateSmramSaveStateMapPages.2.2] :=
  ⟨rfl, rfl, smm_save_state_zeroed_before_clear envSnpSmm rfl rfl⟩

/-- C9: when the pool allocation of the blob fails (after a non-fatal
scrub), the routine emits the diagnostic and the assertion and halts in
CpuDeadLoop, and the configuration-table install is never reached. -/
theorem blob_allocation_failure_halts_without_install (env : Env)
    (hsev : env.memEncryptSevIsEnabled = true)
    (hnohalt : (smmPhase env).1 = false)
    (herr : EFI_ERROR (env.allocatePool EfiACPIReclaimMemory sizeofBlobLocation) = true) :
    (AmdSevDxeEntryPoint env).1 = Outcome.halt ∧
    countInstall (AmdSevDxeEntryPoint env).2 = 0 ∧
    (AmdSevDxeEntryPoint env).2 =
      sweepPhase env ++ mmconfigPhase env ++ (smmPhase env).2 ++
      [Event.allocatePool EfiACPIReclaimMemory sizeofBlobLocation,
       Event.debugError FnName.allocateConfidentialComputingBlob
         (env.allocatePool EfiACPIReclaimMemory sizeofBlobLocation),
       Event.assertFalse] := by
  have halloc : EFI_ERROR (AllocateConfidentialComputingBlob env none).1 = true := by
    simp [AllocateConfidentialComputingBlob, herr]
  have hst : (AllocateConfidentialComputingBlob env none).1 =
      env.allocatePool EfiACPIReclaimMemory sizeofBlobLocation := by
    simp [AllocateConfidentialComputingBlob, herr]
  refine ⟨?_, ?_, ?_⟩
  · rw [entry_outcome_cases env hsev]
    simp [hnohalt, halloc]
  · rw [entry_trace_cases env hsev, countInstall_append, countInstall_append,
      countInstall_append, countInstall_sweepPhase, countInstall_mmconfig,
      countInstall_smm]
    simp [hnohalt, halloc, countInstall]
  · rw [entry_trace_cases env hsev]
    simp [hnohalt, halloc, hst, herr, List.append_assoc]

/-- Witness for C9 at a concrete environment. -/
theorem blob_allocation_failure_witness :
    envAllocFails.memEncryptSevIsEnabled = true ∧
    (smmPhase envAllocFails).1 = false ∧
    EFI_ERROR (envAllocFails.allocatePool EfiACPIReclaimMemory sizeofBlobLocation) = true ∧
    ((AmdSevDxeEntryPoint envAllocFails).1 = Outcome.halt ∧
     countInstall (AmdSevDxeEntryPoint envAllocFails).2 = 0 ∧
     (AmdSevDxeEntryPoint envAllocFails).2 =
       sweepPhase envAllocFails ++ mmconfigPhase envAllocFails ++
       (smmPhase envAllocFails).2 ++
       [Event.allocatePool EfiACPIReclaimMemory sizeofBlobLocation,
        Event.debugError FnName.allocateConfidentialComputingBlob
          (envAllocFails.allocatePool EfiACPIReclaimMemory sizeofBlobLocation),
        Event.assertFalse]) :=
  ⟨rfl, by decide, by decide,
   blob_allocation_failure_halts_without_install envAllocFails rfl (by decide) (by decide)⟩

/-- Counterexample to C5 as stated: with the SMM flag set and the
locate-save-state operation failing, the run does not halt, and the
configuration-table install is still reached. -/
theorem smm_locate_failure_not_fatal_counterexample :
    EFI_ERROR envLocateFails.locateSmramSaveStateMapPages.1 = true ∧
    envLocateFails.pcdSmmSmramRequire = true ∧
    (AmdSevDxeEntryPoint envLocateFails).1 ≠ Outcome.halt ∧
    countInstall (AmdSevDxeEntryPoint envLocateFails).2 = 1 := by decide

/-- C5 as amended: when the SMM flag is set, a failing C-bit clear of
the save-state region is fatal, with the diagnostic, the assertion, the
CpuDeadLoop halt, and no configuration-table install; a failing locate,
however, only raises a debug-build assertion, and execution proceeds to
zero and clear the region and on to the blob allocation when the clear
succeeds. -/
theorem smm_clear_failure_fatal_locate_failure_proceeds (env : Env)
    (hsev : env.memEncryptSevIsEnabled = true)
    (hsmm : env.pcdSmmSmramRequire = true) :
    (EFI_ERROR (env.clearPageEncMask 0 env.locateSmramSaveStateMapPages.2.1
        env.locateSmramSaveStateMapPages.2.2) = true →
      (AmdSevDxeEntryPoint env).1 = Outcome.halt ∧
      countInstall (AmdSevDxeEntryPoint env).2 = 0 ∧
      (AmdSevDxeEntryPoint env).2 =
        sweepPhase env ++ mmconfigPhase env ++
        [Event.locateSmramSaveStateMapPages,
         Event.zeroMem env.locateSmramSaveStateMapPages.2.1
           (env.locateSmramSaveStateMapPages.2.2 * 4096),
         Event.clearPageEncMask 0 env.locateSmramSaveStateMapPages.2.1
           env.locateSmramSaveStateMapPages.2.2,
         Event.debugError FnName.memEncryptSevClearPageEncMask
           (env.clearPageEncMask 0 env.locateSmramSaveStateMapPages.2.1
             env.locateSmramSaveStateMapPages.2.2),
         Event.assertFalse]) ∧
    (EFI_ERROR env.locateSmramSaveStateMapPages.1 = true →
      EFI_ERROR (env.clearPageEncMask 0 env.locateSmramSaveStateMapPages.2.1
        env.locateSmramSaveStateMapPages.2.2) = false →
      Event.zeroMem env.locateSmramSaveStateMapPages.2.1
        (env.locateSmramSaveStateMapPages.2.2 * 4096) ∈ (AmdSevDxeEntryPoint env).2 ∧
      Event.allocatePool EfiACPIReclaimMemory sizeofBlobLocation ∈
        (AmdSevDxeEntryPoint env).2) := by
  constructor
  · intro hclear
    have hsmmPh : smmPhase env =
        (true, [Event.locateSmramSaveStateMapPages,
          Event.zeroMem env.locateSmramSaveStateMapPages.2.1
            (EFI_PAGES_TO_SIZE env.locateSmramSaveStateMapPages.2.2),
          Event.clearPageEncMask 0 env.locateSmramSaveStateMapPages.2.1
            env.locateSmramSaveStateMapPages.2.2,
          Event.debugError FnName.memEncryptSevClearPageEncMask
            (env.clearPageEncMask 0 env.locateSmramSaveStateMapPages.2.1
              env.locateSmramSaveStateMapPages.2.2),
          Event.assertFalse]) := by
      unfold smmPhase
      rw [if_pos hsmm, if_pos hclear]
    refine ⟨?_, ?_, ?_⟩
    · rw [entry_outcome_cases env hsev, hsmmPh]
      simp
    · rw [entry_trace_cases env hsev, countInstall_append, countInstall_append,
        countInstall_append, countInstall_sweepPhase, countInstall_mmconfig,
        countInstall_smm]
      rw [hsmmPh]
      simp [countInstall]
    · rw [entry_trace_cases env hsev, hsmmPh]
      simp [pages_to_size_eq_mul, List.append_assoc]
  · intro _hloc hclear
    have hsmmPh : smmPhase env =
        (false, [Event.locateSmramSaveStateMapPages,
          Event.zeroMem env.locateSmramSaveStateMapPages.2.1
            (EFI_PAGES_TO_SIZE env.locateSmramSaveStateMapPages.2.2),
          Event.clearPageEncMask 0 env.locateSmramSaveStateMapPages.2.1
            env.locateSmramSaveStateMapPages.2.2]) := by
      unfold smmPhase
      rw [if_pos hsmm, if_neg (by simp [hclear])]
    rw [entry_trace_cases env hsev, hsmmPh]
    simp [pages_to_size_eq_mul]

/-- Witness for the amended C5 at a concrete environment whose
save-state C-bit clear fails. -/
theorem smm_clear_failure_fatal_witness :
    envClearPageFails.memEncryptSevIsEnabled = true ∧
    envClearPageFails.pcdSmmSmramRequire = true ∧
    EFI_ERROR (envClearPageFails.clearPageEncMask 0
      envClearPageFails.locateSmramSaveStateMapPages.2.1
      envClearPageFails.locateSmramSaveStateMapPages.2.2) = true ∧
    ((AmdSevDxeEntryPoint envClearPageFails).1 = Outcome.halt ∧
     countInstall (AmdSevDxeEntryPoint envClearPageFails).2 = 0 ∧
     (AmdSevDxeEntryPoint envClearPageFails).2 =
       sweepPhase envClearPageFails ++ mmconfigPhase envClearPageFails ++
       [Event.locateSmramSaveStateMapPages,
        Event.zeroMem envClearPageFails.locateSmramSaveStateMapPages.2.1
          (envClearPageFails.locateSmramSaveStateMapPages.2.2 * 4096),
        Event.clearPageEncMask 0 envClearPageFails.locateSmramSaveStateMapPages.2.1
          envClearPageFails.locateSmramSaveStateMapPages.2.2,
        Event.debugError FnName.memEncryptSevClearPageEncMask
          (envClearPageFails.clearPageEncMask 0
            envClearPageFails.locateSmramSaveStateMapPages.2.1
            envClearPageFails.locateSmramSaveStateMapPages.2.2),
        Event.assertFalse]) :=
  ⟨rfl, rfl, by decide,
   (smm_clear_failure_fatal_locate_failure_proceeds envClearPageFails rfl rfl).1
     (by decide)⟩

end AmdSevDxe
